import Mathlib

/-
Verification of the Check-Update read-model/cache-invalidation engine.
Shallow embedding of blog/managers.py, blog/utils.py, blog/views.py,
blog/signals.py, blog/mixin.py and blog/models.py (News.save, bookmarks).
-/

namespace CheckUpdate

/-- A News row as the ranking queries see it: the fields read by
blog/managers.py and blog/views.py.  `category` stands for the joined
`subcategory__category` id; `bookmarks` is the set of bookmarking user ids
(the News<->User many-to-many relation). -/
structure NewsItem where
  id : Nat
  views : Nat
  created : Nat
  mediaType : String
  isForeign : Bool
  isTopStory : Bool
  subcategory : Nat
  category : Nat
  bookmarks : Finset Nat
  deriving DecidableEq

/-- Comparator for `order_by('-created')`: `a` may precede `b` iff
`b.created <= a.created` (creation time descending). -/
def ledCreated (a b : NewsItem) : Bool := decide (b.created ≤ a.created)

/-- Comparator for `order_by('-views')`: views descending. -/
def ledViews (a b : NewsItem) : Bool := decide (b.views ≤ a.views)

/-- Comparator for `order_by('-views', '-created')`: views descending, then
creation time descending. -/
def ledViewsCreated (a b : NewsItem) : Bool :=
  decide (b.views < a.views ∨ (b.views = a.views ∧ b.created ≤ a.created))

/-- Stable insertion used by `sortBy`: places `a` before the first element it
may precede, so earlier store rows keep their position on ties. -/
def insertBy (le : α → α → Bool) (a : α) : List α → List α
  | [] => [a]
  | b :: l => if le a b then a :: b :: l else b :: insertBy le a l

/-- Deterministic stable sort modelling SQL `ORDER BY`: on ties it keeps the
underlying row order of the queryset. -/
def sortBy (le : α → α → Bool) : List α → List α
  | [] => []
  | a :: l => insertBy le a (sortBy le l)

theorem length_insertBy (le : α → α → Bool) (a : α) (l : List α) :
    (insertBy le a l).length = l.length + 1 := by
  induction l with
  | nil => rfl
  | cons b l ih =>
    simp only [insertBy]
    split
    · simp
    · simp [ih]

theorem length_sortBy (le : α → α → Bool) (l : List α) :
    (sortBy le l).length = l.length := by
  induction l with
  | nil => rfl
  | cons a l ih => simp [sortBy, length_insertBy, ih]

theorem perm_insertBy (le : α → α → Bool) (a : α) (l : List α) :
    List.Perm (insertBy le a l) (a :: l) := by
  induction l with
  | nil => exact List.Perm.refl _
  | cons b l ih =>
    simp only [insertBy]
    split
    · exact List.Perm.refl _
    · exact (ih.cons b).trans (List.Perm.swap a b l)

theorem perm_sortBy (le : α → α → Bool) (l : List α) : List.Perm (sortBy le l) l := by
  induction l with
  | nil => exact List.Perm.refl _
  | cons a l ih => exact (perm_insertBy le a (sortBy le l)).trans (ih.cons a)

theorem mem_sortBy (le : α → α → Bool) (x : α) (l : List α) :
    x ∈ sortBy le l ↔ x ∈ l :=
  (perm_sortBy le l).mem_iff

/-- Sortedness predicate: every element may precede every later element. -/
def PairwiseLe (le : α → α → Bool) (l : List α) : Prop :=
  l.Pairwise (fun a b => le a b = true)

theorem pairwiseLe_insertBy (le : α → α → Bool)
    (htot : ∀ a b, le a b = false → le b a = true)
    (htrans : ∀ a b c, le a b = true → le b c = true → le a c = true)
    (a : α) (l : List α) (h : PairwiseLe le l) :
    PairwiseLe le (insertBy le a l) := by
  induction l with
  | nil => simp [insertBy, PairwiseLe]
  | cons b l ih =>
    rw [PairwiseLe, List.pairwise_cons] at h
    simp only [insertBy]
    split
    · rename_i hab
      rw [PairwiseLe, List.pairwise_cons]
      refine ⟨?_, List.pairwise_cons.mpr h⟩
      intro x hx
      rcases List.mem_cons.mp hx with hxb | hxl
      · exact hxb ▸ hab
      · exact htrans a b x hab (h.1 x hxl)
    · rename_i hab
      rw [PairwiseLe, List.pairwise_cons]
      refine ⟨?_, ih h.2⟩
      intro x hx
      rcases List.mem_cons.mp ((perm_insertBy le a l).mem_iff.mp hx) with hxa | hxl
      · exact hxa ▸ htot a b (Bool.of_not_eq_true hab)
      · exact h.1 x hxl

theorem pairwiseLe_sortBy (le : α → α → Bool)
    (htot : ∀ a b, le a b = false → le b a = true)
    (htrans : ∀ a b c, le a b = true → le b c = true → le a c = true)
    (l : List α) : PairwiseLe le (sortBy le l) := by
  induction l with
  | nil => simp [sortBy, PairwiseLe]
  | cons a l ih => exact pairwiseLe_insertBy le htot htrans a (sortBy le l) ih

theorem ledViews_total (a b : NewsItem) :
    ledViews a b = false → ledViews b a = true := by
  simp only [ledViews, decide_eq_false_iff_not, decide_eq_true_eq]
  omega

theorem ledViews_trans (a b c : NewsItem) :
    ledViews a b = true → ledViews b c = true → ledViews a c = true := by
  simp only [ledViews, decide_eq_true_eq]
  omega

theorem ledCreated_total (a b : NewsItem) :
    ledCreated a b = false → ledCreated b a = true := by
  simp only [ledCreated, decide_eq_false_iff_not, decide_eq_true_eq]
  omega

theorem ledCreated_trans (a b c : NewsItem) :
    ledCreated a b = true → ledCreated b c = true → ledCreated a c = true := by
  simp only [ledCreated, decide_eq_true_eq]
  omega

theorem ledViewsCreated_total (a b : NewsItem) :
    ledViewsCreated a b = false → ledViewsCreated b a = true := by
  simp only [ledViewsCreated, decide_eq_false_iff_not, decide_eq_true_eq]
  omega

theorem ledViewsCreated_trans (a b c : NewsItem) :
    ledViewsCreated a b = true → ledViewsCreated b c = true →
    ledViewsCreated a c = true := by
  simp only [ledViewsCreated, decide_eq_true_eq]
  omega

/-- Python truthiness of the `limit` argument (`int` or `None`): `None` and
`0` are falsy, every positive int is truthy. -/
def limTruthy : Option Nat → Bool
  | none => false
  | some n => decide (n ≠ 0)

/-- Python slicing `qs[:limit]` with `limit` an optional int: `qs[:None]` is
the whole sequence, `qs[:n]` keeps the first `n` elements. -/
def pySliceOpt : Option Nat → List α → List α
  | none, l => l
  | some n, l => l.take n

/-- The managers' recurring pattern `qs[:limit] if limit else qs`. -/
def pyLimit (limit : Option Nat) (l : List α) : List α :=
  if limTruthy limit then pySliceOpt limit l else l

/-- Optional subcategory scope: `if subcategory: qs = qs.filter(subcategory=subcategory)`. -/
def scopeFilter (sub : Option Nat) (l : List NewsItem) : List NewsItem :=
  match sub with
  | none => l
  | some s => l.filter (fun n => decide (n.subcategory = s))

/-- Seven days in seconds, for `timezone.now() - timedelta(days=7)`. -/
def weekSeconds : Nat := 7 * 86400

/-- NewsManager.get_latest: order by `-created`, optional scope filter, then
`qs[:limit] if limit else qs`. -/
def getLatest (snap : List NewsItem) (sub : Option Nat) (limit : Option Nat) :
    List NewsItem :=
  pyLimit limit (scopeFilter sub (sortBy ledCreated snap))

/-- NewsManager.get_trending: filter `created__gte=week_ago`, optional scope,
order by `('-views', '-created')`, then limit. -/
def getTrending (snap : List NewsItem) (now : Nat) (sub : Option Nat)
    (limit : Option Nat) : List NewsItem :=
  pyLimit limit (sortBy ledViewsCreated
    (scopeFilter sub (snap.filter (fun n => decide (now - weekSeconds ≤ n.created)))))

/-- NewsManager.get_top_stories: filter `is_top_story=True`, optional scope,
order by `-created`, then limit. -/
def getTopStories (snap : List NewsItem) (sub : Option Nat) (limit : Option Nat) :
    List NewsItem :=
  pyLimit limit (sortBy ledCreated (scopeFilter sub (snap.filter (fun n => n.isTopStory))))

/-- NewsManager.get_most_watched_videos: filter `media_type='video'`, optional
scope, order by `('-views', '-created')`, then limit.  The source applies no
creation-date window. -/
def getMostWatchedVideos (snap : List NewsItem) (sub : Option Nat)
    (limit : Option Nat) : List NewsItem :=
  pyLimit limit (sortBy ledViewsCreated
    (scopeFilter sub (snap.filter (fun n => decide (n.mediaType = "video")))))

/-- NewsManager.get_hot_stories_this_week: filter `created__gte=week_ago`,
optional scope, order by `-views`, then limit. -/
def getHotStoriesThisWeek (snap : List NewsItem) (now : Nat) (sub : Option Nat)
    (limit : Option Nat) : List NewsItem :=
  pyLimit limit (sortBy ledViews
    (scopeFilter sub (snap.filter (fun n => decide (now - weekSeconds ≤ n.created)))))

/-- NewsManager.get_foreign_news: filter `is_foreign=is_foreign`, optional
scope, order by `-created`, then limit. -/
def getForeignNews (snap : List NewsItem) (sub : Option Nat) (flag : Bool)
    (limit : Option Nat) : List NewsItem :=
  pyLimit limit (sortBy ledCreated (scopeFilter sub (snap.filter (fun n => n.isForeign == flag))))

/-- NewsManager.get_most_viewed: optional scope, order by `-views`, then
limit.  No tie-break key beyond `views` appears in the source. -/
def getMostViewed (snap : List NewsItem) (sub : Option Nat) (limit : Option Nat) :
    List NewsItem :=
  pyLimit limit (sortBy ledViews (scopeFilter sub snap))

/-- The requesting user as the manager sees it: an id and the
`is_authenticated` flag. -/
structure UserRef where
  id : Nat
  isAuthenticated : Bool
  deriving DecidableEq

/-- Distinct category ids of the News rows the user has bookmarked:
`qs.filter(bookmarks=user).values_list('subcategory__category', flat=True).distinct()`. -/
def bookmarkedCategoryIds (snap : List NewsItem) (uid : Nat) : List Nat :=
  ((snap.filter (fun n => decide (uid ∈ n.bookmarks))).map (fun n => n.category)).dedup

/-- Fallback branch of NewsManager.get_recommended:
`self.get_trending(limit=limit) if limit else self.get_latest(limit=limit)`. -/
def getRecommendedFallback (snap : List NewsItem) (now : Nat)
    (limit : Option Nat) : List NewsItem :=
  if limTruthy limit then getTrending snap now none limit
  else getLatest snap none limit

/-- NewsManager.get_recommended: for an authenticated user whose bookmark
categories are non-empty, News in those categories minus already-bookmarked
rows, ordered by `-created` and sliced by `[:limit]` unconditionally;
otherwise the trending/latest fallback. -/
def getRecommended (snap : List NewsItem) (now : Nat) (user : Option UserRef)
    (limit : Option Nat) : List NewsItem :=
  match user with
  | some u =>
    if u.isAuthenticated then
      if bookmarkedCategoryIds snap u.id ≠ [] then
        pySliceOpt limit (sortBy ledCreated (snap.filter (fun n =>
          decide (n.category ∈ bookmarkedCategoryIds snap u.id ∧ ¬ u.id ∈ n.bookmarks))))
      else getRecommendedFallback snap now limit
    else getRecommendedFallback snap now limit
  | none => getRecommendedFallback snap now limit

/-- RecommendationEngine.get_recommendations (blog/utils.py).  For an
unauthenticated user the source returns `News.objects.get_latest(limit)`.
For any authenticated user it builds a queryset ordered by
`("-created_at", "-views")`; News has no field `created_at` (common/models.py
BaseModel defines `created`), so evaluating that queryset at
`len(recommendations)` raises Django FieldError before the most_viewed
padding can run — modelled as an error result. -/
def getRecommendations (snap : List NewsItem) (user : UserRef) (limit : Nat) :
    Except String (List NewsItem) :=
  if user.isAuthenticated = false then
    Except.ok (getLatest snap none (some limit))
  else
    Except.error "FieldError: cannot resolve keyword created_at into a field"

/-- Python string interpolation of `request.query_params.get('limit')`: the
raw query-string value, or the text `None` when the parameter is absent. -/
def pyFormatOpt : Option String → String
  | none => "None"
  | some s => s

/-- LatestNewsView.get: `cache_key = f"news:latest:limit={limit}"`. -/
def latestCacheKey (limit : Option String) : String :=
  "news:latest:limit=" ++ pyFormatOpt limit

/-- TrendingNewsView.get cache key. -/
def trendingCacheKey (limit : Option String) : String :=
  "news:trending:limit=" ++ pyFormatOpt limit

/-- TopStoriesView.get cache key. -/
def topStoriesCacheKey (limit : Option String) : String :=
  "news:topstories:limit=" ++ pyFormatOpt limit

/-- MostWatchedView.get cache key. -/
def mostWatchedCacheKey (limit : Option String) : String :=
  "news:mostwatched:limit=" ++ pyFormatOpt limit

/-- RecommendedNewsView.get:
`user_part = f"user={getattr(request.user, 'id', 'anon')}"`; `none` models a
user object without an `id` attribute, for which the source substitutes the
literal `anon`. -/
def userKeyPart : Option Nat → String
  | some i => "user=" ++ toString i
  | none => "user=anon"

/-- RecommendedNewsView.get:
`cache_key = f"news:recommended:{user_part}:limit={limit}"`. -/
def recommendedCacheKey (uid : Option Nat) (limit : Option String) : String :=
  "news:recommended:" ++ userKeyPart uid ++ ":limit=" ++ pyFormatOpt limit

/-- The cache backend as a key-value association list (first binding wins). -/
abbrev CacheStore : Type := List (String × String)

/-- `cache.get(key)`. -/
def cacheLookup (store : CacheStore) (key : String) : Option String :=
  (List.find? (fun kv => kv.1 == key) store).map (fun kv => kv.2)

/-- `cache.delete_many(keys)`: removes every binding whose key is listed. -/
def cacheDeleteMany (keys : List String) (store : CacheStore) : CacheStore :=
  List.filter (fun kv => !(List.contains keys kv.1)) store

/-- The static registry of "well-known" news keys that
`_delete_pattern_safe` deletes on a backend without pattern support
(blog/signals.py, method 3). -/
def knownNewsKeys : List String :=
  ["news:latest", "news:popular", "news:all", "news:featured"]

/-- invalidate_news_cache on a backend with neither `delete_pattern` nor a
Redis connection: `_delete_pattern_safe("news:*")` falls back to
`cache.delete_many(known_keys)`, and the receiver then repeats
`cache.delete_many` on the same four keys. -/
def invalidateNewsCacheFallback (store : CacheStore) : CacheStore :=
  cacheDeleteMany knownNewsKeys (cacheDeleteMany knownNewsKeys store)

/-- Response envelope of BaseAPIView: `{status, message, data}` plus the HTTP
status code. -/
structure ApiResponse (α : Type) where
  status : String
  message : String
  payload : Option α
  httpCode : Nat
  deriving DecidableEq

/-- BaseAPIView.success_response with its default message and 200 code. -/
def successResponse (data : α) : ApiResponse α :=
  ⟨"success", "Success", some data, 200⟩

/-- BaseAPIView.error_response with its default 400 code. -/
def errorResponse (msg : String) : ApiResponse α :=
  ⟨"error", msg, none, 400⟩

/-- Outcome of `cache.get`: a hit, a clean miss, or a backend exception. -/
inductive CacheGetOutcome (α : Type) where
  | ok (v : Option α)
  | raises
  deriving DecidableEq

/-- Outcome of `cache.set`: success or a backend exception. -/
inductive CacheSetOutcome where
  | ok
  | raises
  deriving DecidableEq

/-- CachedNewsMixin.get_cached_news: one try block wraps `cache.get`, the
Entity Store query + serialisation (abstracted as `computed`), and
`cache.set`; any exception is caught and turned into
`error_response("Failed to fetch news data")`. -/
def getCachedNews (g : CacheGetOutcome α) (s : CacheSetOutcome)
    (computed : α) : ApiResponse α :=
  match g with
  | CacheGetOutcome.raises => errorResponse "Failed to fetch news data"
  | CacheGetOutcome.ok (some d) => successResponse d
  | CacheGetOutcome.ok none =>
    match s with
    | CacheSetOutcome.raises => errorResponse "Failed to fetch news data"
    | CacheSetOutcome.ok => successResponse computed

/-- Strip HTML markup from a character stream.  Modelled from the spec: the
source delegates to BeautifulSoup text extraction
(`"".join(BeautifulSoup(content, "html.parser").findAll(text=True))`), a
library external to this repository; text outside tags is kept, tag contents
between a `<` and the matching `>` are dropped. -/
def stripTagsAux : Bool → List Char → List Char
  | _, [] => []
  | true, c :: cs => if c = '>' then stripTagsAux false cs else stripTagsAux true cs
  | false, c :: cs => if c = '<' then stripTagsAux true cs else c :: stripTagsAux false cs

/-- News.save excerpt derivation (blog/models.py), at character level:
`if not self.excerpt and self.content:` set the excerpt to the markup-stripped
content, truncated to 150 characters plus `"..."` when longer than 150. -/
def deriveExcerptChars (excerpt content : List Char) : List Char :=
  if excerpt = [] ∧ content ≠ [] then
    let clean := stripTagsAux false content
    if 150 < clean.length then clean.take 150 ++ "...".data else clean
  else excerpt

/-- String-level wrapper of the excerpt derivation. -/
def deriveExcerpt (excerpt content : String) : String :=
  String.mk (deriveExcerptChars excerpt.data content.data)

/-- Result of BookmarkNewsView.post: the updated News row and the response
message. -/
structure BookmarkOutcome where
  item : NewsItem
  message : String
  deriving DecidableEq

/-- BookmarkNewsView.post: if the user is in the bookmark set, remove them,
otherwise add them; only the bookmark relation is touched. -/
def toggleBookmark (uid : Nat) (n : NewsItem) : BookmarkOutcome :=
  if uid ∈ n.bookmarks then
    ⟨{ n with bookmarks := n.bookmarks.erase uid }, "News removed from bookmarks"⟩
  else
    ⟨{ n with bookmarks := insert uid n.bookmarks }, "News added to bookmarks"⟩

theorem string_eq_of_data (a b : String) (h : a.data = b.data) : a = b := by
  cases a
  cases b
  exact congrArg String.mk h

theorem string_data_append (a b : String) : (a ++ b).data = a.data ++ b.data := by
  cases a
  cases b
  rfl

theorem string_append_cancel_left (p a b : String) (h : p ++ a = p ++ b) : a = b := by
  apply string_eq_of_data
  have hd := congrArg String.data h
  rw [string_data_append, string_data_append] at hd
  exact List.append_cancel_left hd

theorem string_append_cancel_right (a b s : String) (h : a ++ s = b ++ s) : a = b := by
  apply string_eq_of_data
  have hd := congrArg String.data h
  rw [string_data_append, string_data_append] at hd
  exact List.append_cancel_right hd

/-- Cache state after a cache-cold `latest` request with `?limit=10`: the
view has stored the serialized ranking under its derived key. -/
def c1Store : CacheStore := [(latestCacheKey (some "10"), "stale-latest-payload")]

/-- C1 (code bug): on a backend without pattern-delete support, the fallback
registry of well-known keys does not cover any key the read paths actually
write.  After a News mutation fires invalidate_news_cache, the entry written
by LatestNewsView under `news:latest:limit=10` — a key with the `news:`
prefix — survives untouched and a subsequent `latest` query is served the
stale cached value, while a store holding only registry keys such as
`news:latest` would have been emptied. -/
theorem c1_fallback_leaves_stale_latest_key :
    invalidateNewsCacheFallback c1Store = c1Store ∧
    cacheLookup (invalidateNewsCacheFallback c1Store) (latestCacheKey (some "10"))
      = some "stale-latest-payload" ∧
    latestCacheKey (some "10") = "news:" ++ "latest:limit=10" ∧
    invalidateNewsCacheFallback [("news:latest", "x")] = [] := by
  decide

/-- Modelled from the spec: the key-derivation contract
`key = "<entity-kind>:<view-name>:<scope-qualifier>:<param1=val1>..."` where
the scope-qualifier is the literal `all` when the view is unscoped. -/
def specLatestCacheKey (limit : String) : String :=
  "news:latest:all:limit=" ++ limit

/-- C2 counterexample: the key the latest view derives for `?limit=10` is
`news:latest:limit=10`, which is not the format the claim requires — the
scope-qualifier segment (`all` for an unscoped view) is absent. -/
theorem c2_counterexample :
    latestCacheKey (some "10") = "news:latest:limit=10" ∧
    latestCacheKey (some "10") ≠ specLatestCacheKey "10" ∧
    recommendedCacheKey (some 42) (some "10") = "news:recommended:user=42:limit=10" := by
  decide

theorem string_append_assoc (a b c : String) : (a ++ b) ++ c = a ++ (b ++ c) := by
  apply string_eq_of_data
  simp [string_data_append]

theorem string_append_take_ne (a b x y : String) (n : Nat)
    (hn1 : n ≤ a.data.length) (hn2 : n ≤ b.data.length)
    (hne : a.data.take n ≠ b.data.take n) : a ++ x ≠ b ++ y := by
  intro h
  have hd := congrArg String.data h
  rw [string_data_append, string_data_append] at hd
  have ht := congrArg (List.take n) hd
  rw [List.take_append_of_le_length hn1, List.take_append_of_le_length hn2] at ht
  exact hne ht

theorem recommendedCacheKey_assoc (u : Option Nat) (l : Option String) :
    recommendedCacheKey u l
      = "news:recommended:" ++ (userKeyPart u ++ (":limit=" ++ pyFormatOpt l)) := by
  rw [recommendedCacheKey, string_append_assoc, string_append_assoc]

/-- C2 amended: ranking-view cache keys have the shape
`news:<view-name>:limit=<limit-param>` with no scope-qualifier segment; the
recommended view inserts `user=<id>` (or `user=anon` when the user object has
no id attribute) before the limit segment.  Every one of the five view keys
determines and is determined by its rendered parameters: equal keys of the
same view force equal limit renderings (and equal user segments for
recommended), and keys of any two different views never collide. -/
theorem c2_cache_key_shape (l1 l2 : Option String) (u1 u2 : Option Nat) :
    (latestCacheKey l1 = latestCacheKey l2 ↔ pyFormatOpt l1 = pyFormatOpt l2) ∧
    (trendingCacheKey l1 = trendingCacheKey l2 ↔ pyFormatOpt l1 = pyFormatOpt l2) ∧
    (topStoriesCacheKey l1 = topStoriesCacheKey l2 ↔ pyFormatOpt l1 = pyFormatOpt l2) ∧
    (mostWatchedCacheKey l1 = mostWatchedCacheKey l2 ↔ pyFormatOpt l1 = pyFormatOpt l2) ∧
    (recommendedCacheKey u1 l1 = recommendedCacheKey u2 l1 →
      userKeyPart u1 = userKeyPart u2) ∧
    (recommendedCacheKey u1 l1 = recommendedCacheKey u1 l2 →
      pyFormatOpt l1 = pyFormatOpt l2) ∧
    latestCacheKey l1 ≠ trendingCacheKey l2 ∧
    latestCacheKey l1 ≠ topStoriesCacheKey l2 ∧
    latestCacheKey l1 ≠ mostWatchedCacheKey l2 ∧
    latestCacheKey l1 ≠ recommendedCacheKey u1 l2 ∧
    trendingCacheKey l1 ≠ topStoriesCacheKey l2 ∧
    trendingCacheKey l1 ≠ mostWatchedCacheKey l2 ∧
    trendingCacheKey l1 ≠ recommendedCacheKey u1 l2 ∧
    topStoriesCacheKey l1 ≠ mostWatchedCacheKey l2 ∧
    topStoriesCacheKey l1 ≠ recommendedCacheKey u1 l2 ∧
    mostWatchedCacheKey l1 ≠ recommendedCacheKey u1 l2 ∧
    userKeyPart none = "user=anon" := by
  refine ⟨⟨?_, ?_⟩, ⟨?_, ?_⟩, ⟨?_, ?_⟩, ⟨?_, ?_⟩, ?_, ?_, ?_, ?_, ?_, ?_, ?_, ?_,
    ?_, ?_, ?_, ?_, rfl⟩
  · intro h
    exact string_append_cancel_left _ _ _ h
  · intro h
    exact congrArg (fun s => "news:latest:limit=" ++ s) h
  · intro h
    exact string_append_cancel_left _ _ _ h
  · intro h
    exact congrArg (fun s => "news:trending:limit=" ++ s) h
  · intro h
    exact string_append_cancel_left _ _ _ h
  · intro h
    exact congrArg (fun s => "news:topstories:limit=" ++ s) h
  · intro h
    exact string_append_cancel_left _ _ _ h
  · intro h
    exact congrArg (fun s => "news:mostwatched:limit=" ++ s) h
  · intro h
    have h1 := string_append_cancel_right _ _ _ h
    have h2 := string_append_cancel_right _ _ _ h1
    exact string_append_cancel_left _ _ _ h2
  · intro h
    have h1 := string_append_cancel_left _ _ _
      ((recommendedCacheKey_assoc u1 l1).symm.trans (h.trans (recommendedCacheKey_assoc u1 l2)))
    have h2 := string_append_cancel_left _ _ _ (string_append_cancel_left _ _ _ h1)
    exact h2
  · exact string_append_take_ne _ _ _ _ 7 (by decide) (by decide) (by decide)
  · exact string_append_take_ne _ _ _ _ 7 (by decide) (by decide) (by decide)
  · exact string_append_take_ne _ _ _ _ 7 (by decide) (by decide) (by decide)
  · rw [recommendedCacheKey_assoc]
    exact string_append_take_ne _ _ _ _ 7 (by decide) (by decide) (by decide)
  · exact string_append_take_ne _ _ _ _ 7 (by decide) (by decide) (by decide)
  · exact string_append_take_ne _ _ _ _ 7 (by decide) (by decide) (by decide)
  · rw [recommendedCacheKey_assoc]
    exact string_append_take_ne _ _ _ _ 7 (by decide) (by decide) (by decide)
  · exact string_append_take_ne _ _ _ _ 7 (by decide) (by decide) (by decide)
  · rw [recommendedCacheKey_assoc]
    exact string_append_take_ne _ _ _ _ 7 (by decide) (by decide) (by decide)
  · rw [recommendedCacheKey_assoc]
    exact string_append_take_ne _ _ _ _ 7 (by decide) (by decide) (by decide)

/-- C2 witness: the injectivity clauses applied at concrete parameters. -/
theorem c2_cache_key_shape_witness :
    userKeyPart (some 7) = userKeyPart (some 7) :=
  (c2_cache_key_shape (some "10") (some "10") (some 7) (some 7)).2.2.2.2.1 rfl

/-- C3 counterexample: when `cache.get` raises, the mixin read path returns
the error envelope, not a success result computed from the Entity Store. -/
theorem c3_counterexample :
    (getCachedNews (α := String) CacheGetOutcome.raises CacheSetOutcome.ok
      "fresh-store-data").status ≠ "success" ∧
    (getCachedNews (α := String) CacheGetOutcome.raises CacheSetOutcome.ok
      "fresh-store-data").payload = none ∧
    (getCachedNews (α := String) CacheGetOutcome.raises CacheSetOutcome.ok
      "fresh-store-data").httpCode = 400 := by
  decide

/-- C3 amended: a cache-backend exception on get or set never propagates as
an uncaught exception, but it is surfaced to the caller as an error envelope
(`Failed to fetch news data`, HTTP 400) carrying no data; the read path falls
through to the Entity Store only on a clean miss. -/
theorem c3_cache_failure_is_error_envelope (g : CacheGetOutcome α)
    (s : CacheSetOutcome) (d : α) :
    ((getCachedNews g s d).status = "error" ↔
      g = CacheGetOutcome.raises ∨
        (g = CacheGetOutcome.ok none ∧ s = CacheSetOutcome.raises)) ∧
    ((getCachedNews g s d).status = "error" →
      (getCachedNews g s d).payload = none ∧ (getCachedNews g s d).httpCode = 400) ∧
    (g = CacheGetOutcome.ok none ∧ s = CacheSetOutcome.ok →
      getCachedNews g s d = successResponse d) := by
  cases g with
  | raises => simp [getCachedNews, errorResponse, successResponse]
  | ok v =>
    cases v with
    | none => cases s <;> simp [getCachedNews, errorResponse, successResponse]
    | some p => cases s <;> simp [getCachedNews, errorResponse, successResponse]

/-- C3 witness: the characterization applied to a raising get outcome. -/
theorem c3_cache_failure_witness :
    (getCachedNews (α := String) CacheGetOutcome.raises CacheSetOutcome.ok
      "d").payload = none ∧
    (getCachedNews (α := String) CacheGetOutcome.raises CacheSetOutcome.ok
      "d").httpCode = 400 :=
  (c3_cache_failure_is_error_envelope CacheGetOutcome.raises CacheSetOutcome.ok
    "d").2.1 (by decide)

theorem pySliceOpt_sublist (lim : Option Nat) (l : List α) :
    List.Sublist (pySliceOpt lim l) l := by
  cases lim with
  | none => exact List.Sublist.refl l
  | some k => exact List.take_sublist k l

/-- A News row older than one week (created 100, viewed 0). -/
def c4OldItem : NewsItem := ⟨1, 0, 100, "none", false, false, 1, 1, ∅⟩

/-- A News row created inside the last week. -/
def c4NewItem : NewsItem := ⟨2, 0, 700000, "none", false, false, 1, 1, ∅⟩

/-- Snapshot with one stale and one fresh row. -/
def c4Snap : List NewsItem := [c4OldItem, c4NewItem]

/-- Query time: one week plus 1000 seconds, so `week_ago = 1000`. -/
def c4Now : Nat := 604800 + 1000

/-- C4 counterexample: with a truthy limit, NewsManager.get_recommended for
an unauthenticated caller (and for an authenticated caller without
bookmarks) falls back to get_trending, whose 7-day window drops the older
row that get_latest returns — the two ordered sequences differ on this
snapshot. -/
theorem c4_counterexample :
    getRecommended c4Snap c4Now none (some 10) ≠ getLatest c4Snap none (some 10) ∧
    getRecommended c4Snap c4Now (some ⟨5, false⟩) (some 10)
      ≠ getLatest c4Snap none (some 10) ∧
    getLatest c4Snap none (some 10) = [c4NewItem, c4OldItem] ∧
    getRecommended c4Snap c4Now none (some 10) = [c4NewItem] := by
  decide

/-- C4 amended: with a truthy limit, NewsManager.get_recommended for an
unauthenticated caller — or an authenticated caller with no bookmarks —
returns get_trending with that limit, not get_latest (get_latest is used
only when the limit is falsy); RecommendationEngine.get_recommendations in
blog/utils.py is the variant that matches the claim, returning get_latest
for every unauthenticated caller. -/
theorem c4_recommended_fallback (snap : List NewsItem) (now : Nat)
    (lim : Option Nat) (u : UserRef) (hlim : limTruthy lim = true) :
    getRecommended snap now none lim = getTrending snap now none lim ∧
    (u.isAuthenticated = false →
      getRecommended snap now (some u) lim = getTrending snap now none lim) ∧
    (u.isAuthenticated = true → bookmarkedCategoryIds snap u.id = [] →
      getRecommended snap now (some u) lim = getTrending snap now none lim) ∧
    getRecommended snap now none none = getLatest snap none none ∧
    (∀ uid limN, getRecommendations snap ⟨uid, false⟩ limN
      = Except.ok (getLatest snap none (some limN))) := by
  refine ⟨?_, ?_, ?_, ?_, ?_⟩
  · simp [getRecommended, getRecommendedFallback, hlim]
  · intro ha
    simp [getRecommended, getRecommendedFallback, ha, hlim]
  · intro ha hb
    simp [getRecommended, getRecommendedFallback, ha, hb, hlim]
  · simp [getRecommended, getRecommendedFallback, limTruthy]
  · intro uid limN
    simp [getRecommendations]

/-- C4 witness: the fallback equation applied on the concrete snapshot. -/
theorem c4_recommended_fallback_witness :
    getRecommended c4Snap c4Now none (some 10) = getTrending c4Snap c4Now none (some 10) :=
  (c4_recommended_fallback c4Snap c4Now (some 10) ⟨5, false⟩ (by decide)).1

/-- Authenticated user id 1 who bookmarked the category-1 row. -/
def c5User : UserRef := ⟨1, true⟩

/-- The row user 1 bookmarked (category 1). -/
def c5Bookmarked : NewsItem := ⟨1, 5, 10, "none", false, false, 1, 1, {1}⟩

/-- A popular row in another category (category 2). -/
def c5Other : NewsItem := ⟨2, 9, 20, "none", false, false, 2, 2, ∅⟩

/-- Snapshot for the recommendation padding claim. -/
def c5Snap : List NewsItem := [c5Bookmarked, c5Other]

/-- C5 counterexample: user 1 is authenticated with one bookmark, the
category-derived results are empty (the only category-1 row is the
bookmarked one), most_viewed is non-empty — yet NewsManager.get_recommended
returns the empty sequence: no most_viewed padding happens and the result
degrades to an empty set. -/
theorem c5_counterexample :
    c5User.isAuthenticated = true ∧
    bookmarkedCategoryIds c5Snap c5User.id ≠ [] ∧
    getRecommended c5Snap 0 (some c5User) (some 10) = [] ∧
    getMostViewed c5Snap none (some 10) ≠ [] := by
  decide

/-- C5 amended: for an authenticated user with at least one bookmark,
NewsManager.get_recommended returns only the category-derived rows (created
descending, sliced by the limit) with no most_viewed padding, so it can be
empty even when most_viewed is not; it never throws and never returns the
user's already-bookmarked rows, and contains no duplicates when the store
ids are distinct.  The most_viewed padding exists only in
RecommendationEngine.get_recommendations, which raises FieldError for every
authenticated caller because it orders by the nonexistent field created_at. -/
theorem c5_recommended_no_padding (snap : List NewsItem) (now : Nat)
    (u : UserRef) (lim : Option Nat) (h1 : u.isAuthenticated = true)
    (h2 : bookmarkedCategoryIds snap u.id ≠ []) :
    getRecommended snap now (some u) lim
      = pySliceOpt lim (sortBy ledCreated (snap.filter (fun n =>
          decide (n.category ∈ bookmarkedCategoryIds snap u.id ∧
            ¬ u.id ∈ n.bookmarks)))) ∧
    ((snap.map (fun n => n.id)).Nodup →
      ((getRecommended snap now (some u) lim).map (fun n => n.id)).Nodup) ∧
    (∀ x, x ∈ getRecommended snap now (some u) lim → ¬ u.id ∈ x.bookmarks) ∧
    (∀ limN, getRecommendations snap u limN
      = Except.error "FieldError: cannot resolve keyword created_at into a field") := by
  have hbranch : getRecommended snap now (some u) lim
      = pySliceOpt lim (sortBy ledCreated (snap.filter (fun n =>
          decide (n.category ∈ bookmarkedCategoryIds snap u.id ∧
            ¬ u.id ∈ n.bookmarks)))) := by
    simp [getRecommended, h1, h2]
  refine ⟨hbranch, ?_, ?_, ?_⟩
  · intro hids
    rw [hbranch]
    have hfil : ((snap.filter (fun n =>
        decide (n.category ∈ bookmarkedCategoryIds snap u.id ∧
          ¬ u.id ∈ n.bookmarks))).map (fun n => n.id)).Nodup :=
      hids.sublist ((List.filter_sublist snap).map (fun n => n.id))
    have hsort : ((sortBy ledCreated (snap.filter (fun n =>
        decide (n.category ∈ bookmarkedCategoryIds snap u.id ∧
          ¬ u.id ∈ n.bookmarks)))).map (fun n => n.id)).Nodup :=
      (((perm_sortBy ledCreated _).map (fun n => n.id)).nodup_iff).mpr hfil
    exact hsort.sublist ((pySliceOpt_sublist lim _).map (fun (n : NewsItem) => n.id))
  · intro x hx
    rw [hbranch] at hx
    have hx2 : x ∈ sortBy ledCreated (snap.filter (fun n =>
        decide (n.category ∈ bookmarkedCategoryIds snap u.id ∧
          ¬ u.id ∈ n.bookmarks))) :=
      (pySliceOpt_sublist lim _).subset hx
    have hx3 := (mem_sortBy _ _ _).mp hx2
    have hx4 := (List.mem_filter.mp hx3).2
    exact (decide_eq_true_eq.mp hx4).2
  · intro limN
    simp [getRecommendations, h1]

/-- C5 witness: distinct store ids yield a duplicate-free recommended list on
the concrete snapshot. -/
theorem c5_recommended_no_padding_witness :
    ((getRecommended c5Snap 0 (some c5User) (some 10)).map (fun n => n.id)).Nodup :=
  (c5_recommended_no_padding c5Snap 0 c5User (some 10) (by decide)
    (by decide)).2.1 (by decide)

theorem pyLimit_some_of_pos {n : Nat} (h : 0 < n) (l : List α) :
    pyLimit (some n) l = l.take n := by
  simp [pyLimit, limTruthy, pySliceOpt, Nat.pos_iff_ne_zero.mp h]

theorem length_scopeFilter_sortBy (le : NewsItem → NewsItem → Bool)
    (sub : Option Nat) (l : List NewsItem) :
    (scopeFilter sub (sortBy le l)).length = (scopeFilter sub l).length := by
  cases sub with
  | none => exact length_sortBy le l
  | some s => exact ((perm_sortBy le l).filter _).length_eq

/-- The rows matched by get_recommended before ordering and slicing: the
category-derived set in the bookmark branch, otherwise the last-week window
that get_trending (the truthy-limit fallback) filters on. -/
def recommendedMatching (snap : List NewsItem) (now : Nat)
    (user : Option UserRef) : List NewsItem :=
  match user with
  | some u =>
    if u.isAuthenticated then
      if bookmarkedCategoryIds snap u.id ≠ [] then
        snap.filter (fun n => decide (n.category ∈ bookmarkedCategoryIds snap u.id ∧
          ¬ u.id ∈ n.bookmarks))
      else snap.filter (fun n => decide (now - weekSeconds ≤ n.created))
    else snap.filter (fun n => decide (now - weekSeconds ≤ n.created))
  | none => snap.filter (fun n => decide (now - weekSeconds ≤ n.created))

/-- One-row snapshot for the limit-0 counterexample. -/
def c6Item : NewsItem := ⟨1, 5, 100, "none", false, false, 1, 1, ∅⟩

/-- C6 counterexample: with limit 0 the managers' guard
`qs[:limit] if limit else qs` treats 0 as falsy and returns the full
sequence: get_latest over a one-row snapshot returns 1 row where the claim
demands min(0, 1) = 0. -/
theorem c6_counterexample :
    (getLatest [c6Item] none (some 0)).length = 1 ∧
    min 0 ([c6Item] : List NewsItem).length = 0 := by
  decide

/-- C6 amended: for every positive limit N, each of the eight ranking
queries returns exactly min(N, matching-count) rows; for N = 0 (or a missing
limit) the limit is falsy and the full matching sequence is returned
instead. -/
theorem c6_bound_respect (snap : List NewsItem) (now : Nat) (sub : Option Nat)
    (flag : Bool) (user : Option UserRef) (N : Nat) (h : 0 < N) :
    (getLatest snap sub (some N)).length = min N (scopeFilter sub snap).length ∧
    (getTrending snap now sub (some N)).length
      = min N (scopeFilter sub (snap.filter (fun n =>
          decide (now - weekSeconds ≤ n.created)))).length ∧
    (getTopStories snap sub (some N)).length
      = min N (scopeFilter sub (snap.filter (fun n => n.isTopStory))).length ∧
    (getMostWatchedVideos snap sub (some N)).length
      = min N (scopeFilter sub (snap.filter (fun n =>
          decide (n.mediaType = "video")))).length ∧
    (getHotStoriesThisWeek snap now sub (some N)).length
      = min N (scopeFilter sub (snap.filter (fun n =>
          decide (now - weekSeconds ≤ n.created)))).length ∧
    (getForeignNews snap sub flag (some N)).length
      = min N (scopeFilter sub (snap.filter (fun n => n.isForeign == flag))).length ∧
    (getMostViewed snap sub (some N)).length = min N (scopeFilter sub snap).length ∧
    (getRecommended snap now user (some N)).length
      = min N (recommendedMatching snap now user).length := by
  have hfb : (getRecommendedFallback snap now (some N)).length
      = min N (snap.filter (fun n => decide (now - weekSeconds ≤ n.created))).length := by
    simp [getRecommendedFallback, limTruthy, Nat.pos_iff_ne_zero.mp h, getTrending,
      pyLimit_some_of_pos h, List.length_take, length_sortBy, scopeFilter]
  refine ⟨?_, ?_, ?_, ?_, ?_, ?_, ?_, ?_⟩
  · simp [getLatest, pyLimit_some_of_pos h, List.length_take, length_scopeFilter_sortBy]
  · simp [getTrending, pyLimit_some_of_pos h, List.length_take, length_sortBy]
  · simp [getTopStories, pyLimit_some_of_pos h, List.length_take, length_sortBy]
  · simp [getMostWatchedVideos, pyLimit_some_of_pos h, List.length_take, length_sortBy]
  · simp [getHotStoriesThisWeek, pyLimit_some_of_pos h, List.length_take, length_sortBy]
  · simp [getForeignNews, pyLimit_some_of_pos h, List.length_take, length_sortBy]
  · simp [getMostViewed, pyLimit_some_of_pos h, List.length_take, length_sortBy]
  · cases user with
    | none => simpa [getRecommended, recommendedMatching] using hfb
    | some u =>
      by_cases ha : u.isAuthenticated
      · by_cases hb : bookmarkedCategoryIds snap u.id ≠ []
        · simp [getRecommended, recommendedMatching, ha, hb, pySliceOpt,
            List.length_take, length_sortBy]
        · simpa [getRecommended, recommendedMatching, ha, hb] using hfb
      · simpa [getRecommended, recommendedMatching, ha] using hfb

/-- C6 witness: the bound equations applied on a concrete snapshot with
limit 1. -/
theorem c6_bound_respect_witness :
    (getLatest [c6Item] none (some 1)).length
      = min 1 (scopeFilter none [c6Item]).length :=
  (c6_bound_respect [c6Item] 0 none false none 1 (by decide)).1

theorem pairwiseLe_pyLimit (le : α → α → Bool) (lim : Option Nat) (l : List α)
    (h : PairwiseLe le l) : PairwiseLe le (pyLimit lim l) := by
  unfold pyLimit
  split
  · exact h.sublist (pySliceOpt_sublist lim l)
  · exact h

/-- A video row far older than one week. -/
def c7OldVideo : NewsItem := ⟨1, 100, 0, "video", false, false, 1, 1, ∅⟩

/-- Query time sixty days after the video was created. -/
def c7Now : Nat := 60 * 86400

/-- C7 counterexample: get_most_watched_videos filters only on
`media_type='video'` and applies no creation-date window, so a video created
sixty days before the query time is still returned. -/
theorem c7_counterexample :
    getMostWatchedVideos [c7OldVideo] none (some 10) = [c7OldVideo] ∧
    c7OldVideo.created + weekSeconds < c7Now := by
  decide

/-- C7 amended: the most_watched_video query returns exactly the News rows
whose media_type is video — over unbounded history, with no 7-day window —
ordered by views descending and then creation time descending. -/
theorem c7_most_watched_videos (snap : List NewsItem) (sub : Option Nat)
    (lim : Option Nat) (x : NewsItem) :
    (x ∈ getMostWatchedVideos snap none none ↔ x ∈ snap ∧ x.mediaType = "video") ∧
    PairwiseLe ledViewsCreated (getMostWatchedVideos snap sub lim) := by
  constructor
  · rw [show getMostWatchedVideos snap none none
        = sortBy ledViewsCreated (snap.filter (fun n =>
            decide (n.mediaType = "video"))) from rfl]
    rw [mem_sortBy]
    rw [List.mem_filter]
    simp
  · exact pairwiseLe_pyLimit _ lim _
      (pairwiseLe_sortBy ledViewsCreated ledViewsCreated_total ledViewsCreated_trans _)

/-- C7 witness: the membership characterization on the concrete snapshot. -/
theorem c7_most_watched_videos_witness :
    c7OldVideo ∈ getMostWatchedVideos [c7OldVideo] none none :=
  (c7_most_watched_videos [c7OldVideo] none none c7OldVideo).1.mpr (by decide)

/-- First of two rows with identical views and identical creation time. -/
def c8ItemA : NewsItem := ⟨1, 7, 50, "none", false, false, 1, 1, ∅⟩

/-- Second row, same views and creation time, larger id. -/
def c8ItemB : NewsItem := ⟨2, 7, 50, "none", false, false, 1, 1, ∅⟩

/-- Store-order snapshot for the tie-break claim. -/
def c8Snap : List NewsItem := [c8ItemA, c8ItemB]

/-- C8 counterexample: get_most_viewed orders by `-views` alone; on two rows
with identical views and identical creation time it keeps the underlying
store order (id ascending here), not the id-descending order the claim
requires. -/
theorem c8_counterexample :
    c8ItemA.views = c8ItemB.views ∧
    c8ItemA.created = c8ItemB.created ∧
    c8ItemA.id < c8ItemB.id ∧
    getMostViewed c8Snap none (some 10) ≠ [c8ItemB, c8ItemA] := by
  decide

/-- C8 amended: most_viewed sorts by views descending only — the source
specifies no tie-break key — and in this deterministic model ties keep the
underlying store order, so the two equal rows come back id ascending;
repeated identical calls on unchanged data trivially agree because the query
is a pure function of the snapshot. -/
theorem c8_most_viewed_order (snap : List NewsItem) (sub : Option Nat)
    (lim : Option Nat) (x : NewsItem) :
    PairwiseLe ledViews (getMostViewed snap sub lim) ∧
    (x ∈ getMostViewed snap sub none ↔ x ∈ scopeFilter sub snap) ∧
    getMostViewed c8Snap none (some 10) = [c8ItemA, c8ItemB] := by
  refine ⟨?_, ?_, by decide⟩
  · exact pairwiseLe_pyLimit _ lim _
      (pairwiseLe_sortBy ledViews ledViews_total ledViews_trans _)
  · rw [show getMostViewed snap sub none
        = sortBy ledViews (scopeFilter sub snap) from rfl]
    exact mem_sortBy _ _ _

/-- C8 witness: the membership characterization instantiated on the tie
snapshot. -/
theorem c8_most_viewed_order_witness :
    c8ItemB ∈ getMostViewed c8Snap none none :=
  (c8_most_viewed_order c8Snap none none c8ItemB).2.1.mpr (by decide)

theorem stripTagsAux_of_no_lt (l : List Char) (h : ∀ c ∈ l, c ≠ '<') :
    stripTagsAux false l = l := by
  induction l with
  | nil => rfl
  | cons c cs ih =>
    have hc : c ≠ '<' := h c (List.mem_cons_self c cs)
    simp only [stripTagsAux, if_neg hc]
    exact congrArg (fun t => c :: t) (ih (fun d hd => h d (List.mem_cons_of_mem c hd)))

theorem string_mk_ne_empty (l : List Char) (h : l ≠ []) : String.mk l ≠ "" := by
  intro he
  exact h (congrArg String.data he)

/-- C9 counterexample: content consisting only of markup is non-empty, yet
the derived excerpt is empty — BeautifulSoup text extraction leaves nothing
and the source stores the empty cleaned string as the excerpt. -/
theorem c9_counterexample :
    deriveExcerpt "" "<b></b>" = "" ∧ ("<b></b>" : String) ≠ "" := by
  decide

/-- C9 amended: for markup-free content, 200 characters derive exactly the
first 150 characters plus an ellipsis and 100 characters are kept verbatim;
the derived excerpt is non-empty whenever the markup-stripped content — not
the raw content — is non-empty. -/
theorem c9_excerpt_derivation (content : String) :
    ((∀ c ∈ content.data, c ≠ '<') → content.data.length = 200 →
      deriveExcerptChars [] content.data = content.data.take 150 ++ "...".data) ∧
    ((∀ c ∈ content.data, c ≠ '<') → content.data.length = 100 →
      deriveExcerptChars [] content.data = content.data) ∧
    (stripTagsAux false content.data ≠ [] → deriveExcerpt "" content ≠ "") := by
  refine ⟨?_, ?_, ?_⟩
  · intro hplain hlen
    have hne : content.data ≠ [] := by
      intro he
      rw [he] at hlen
      exact absurd hlen (by decide)
    rw [deriveExcerptChars, if_pos ⟨rfl, hne⟩]
    rw [stripTagsAux_of_no_lt content.data hplain]
    rw [if_pos (by rw [hlen]; decide)]
  · intro hplain hlen
    have hne : content.data ≠ [] := by
      intro he
      rw [he] at hlen
      exact absurd hlen (by decide)
    rw [deriveExcerptChars, if_pos ⟨rfl, hne⟩]
    rw [stripTagsAux_of_no_lt content.data hplain]
    rw [if_neg (by rw [hlen]; decide)]
  · intro hclean
    have hne : content.data ≠ [] := by
      intro he
      rw [he] at hclean
      exact hclean rfl
    rw [deriveExcerpt, deriveExcerptChars]
    rw [if_pos ⟨rfl, hne⟩]
    apply string_mk_ne_empty
    dsimp only
    split
    · simp
    · exact hclean

/-- Markup-free content of 200 identical characters. -/
def c9Content : String := String.mk (List.replicate 200 'a')

set_option maxRecDepth 4000 in
/-- C9 witness: the 200-character clause applied to concrete content. -/
theorem c9_excerpt_derivation_witness :
    deriveExcerptChars [] c9Content.data = c9Content.data.take 150 ++ "...".data :=
  (c9_excerpt_derivation c9Content).1 (by decide) (by decide)

/-- C10 (confirmed): the bookmark endpoint is a toggle — it removes the user
from the bookmark set when present and inserts them when absent, applying it
twice restores the original News row exactly, and a single application
changes no field other than the bookmark relation. -/
theorem c10_bookmark_toggle (uid : Nat) (n : NewsItem) :
    (toggleBookmark uid (toggleBookmark uid n).item).item = n ∧
    (uid ∈ (toggleBookmark uid n).item.bookmarks ↔ ¬ uid ∈ n.bookmarks) ∧
    (toggleBookmark uid n).item.id = n.id ∧
    (toggleBookmark uid n).item.views = n.views ∧
    (toggleBookmark uid n).item.created = n.created ∧
    (toggleBookmark uid n).item.mediaType = n.mediaType ∧
    (toggleBookmark uid n).item.isForeign = n.isForeign ∧
    (toggleBookmark uid n).item.isTopStory = n.isTopStory ∧
    (toggleBookmark uid n).item.subcategory = n.subcategory ∧
    (toggleBookmark uid n).item.category = n.category := by
  by_cases h : uid ∈ n.bookmarks
  · refine ⟨?_, ?_, ?_⟩
    · simp only [toggleBookmark, if_pos h]
      rw [if_neg (Finset.not_mem_erase uid n.bookmarks)]
      simp [Finset.insert_erase h]
    · simp [toggleBookmark, if_pos h, Finset.mem_erase, h]
    · simp [toggleBookmark, if_pos h]
  · refine ⟨?_, ?_, ?_⟩
    · simp only [toggleBookmark, if_neg h]
      rw [if_pos (Finset.mem_insert_self uid n.bookmarks)]
      simp [Finset.erase_insert h]
    · simp [toggleBookmark, if_neg h, h]
    · simp [toggleBookmark, if_neg h]

end CheckUpdate
